import Mathlib

/-!
Verification development for the LLM Comparator repository.

The definitions below are a shallow embedding of the program's core:
the `Question` and `Response` value objects with their construction-time
validation, the provider abstraction and the response collector
`gather_provider_responses`, the chat-completion helper
`OpenAIClientHelper.ask`, and the anonymized judge
`judge_responses_with_openai` (JSON parse of the judge reply, gate on the
competitor count, anonymization, and the re-map loop).

Machine-level conventions: Python strings are Lean `String`s and the
character-level operations are spelled out on `String.data`; Python
exceptions are `Except`; Python `None` is `Option.none`; a Python dict is
an association list with distinct keys in insertion order, and dict
assignment is `dictInsert` (update in place, or append a new key at the
end).  Effectful calls (a provider's backend, the judge's chat request)
are passed in as explicit outcome parameters.
-/

/-- Model of Python `str.strip()`: drop leading and trailing whitespace
characters. -/
def pyStrip (s : String) : String :=
  String.mk (((s.data.dropWhile Char.isWhitespace).reverse.dropWhile
    Char.isWhitespace).reverse)

/-- Model of the `Question` dataclass of `src/models/question.py`: the
question text together with its identifier and creation timestamp (the
latter two are opaque to every claim; the uuid/clock default factories are
passed in as parameters). -/
structure Question where
  text : String
  id : String
  created_at : Int
deriving DecidableEq, Repr

/-- Model of constructing a `Question`: `__post_init__` raises
`ValueError` when `self.text.strip()` is falsy, i.e. construction
succeeds exactly when the text has a non-whitespace character. -/
def Question.create (text id : String) (created_at : Int) : Option Question :=
  if pyStrip text = "" then none
  else some ⟨text, id, created_at⟩

/-- Model of `Question.short_preview`: the full text when its length is
at most `length`, else the first `length` characters followed by `"..."`
(Python slices count code points, so this works on `String.data`). -/
def Question.short_preview (q : Question) (length : Nat) : String :=
  if q.text.data.length ≤ length then q.text
  else String.mk (q.text.data.take length) ++ "..."

/-- Model of the `Response` dataclass of `src/models/response.py`. -/
structure Response where
  provider : String
  question : Question
  answer : String
deriving DecidableEq, Repr

/-- Model of constructing a `Response`: `__post_init__` raises when the
provider name or the answer strips to the empty string.  The source's
third check, `if not self.question`, can never fire because a `Question`
object is always truthy in Python, so it has no counterpart here. -/
def Response.create (provider : String) (question : Question) (answer : String) :
    Option Response :=
  if pyStrip provider = "" then none
  else if pyStrip answer = "" then none
  else some ⟨provider, question, answer⟩

/-- A provider of `src/providers/`: a validated name together with the
behaviour of its backend on one question — either an exception
(`Except.error`) or the textual answer the adapter extracted.  Every
concrete adapter (`openai_impl`, `groq_impl`, `anthropic_impl`,
`ollama_impl`) ends with
`Response(provider=self.name, question=question, answer=answer)`. -/
structure Provider where
  name : String
  behavior : Question → Except String String

/-- Model of `generate_answer` of the concrete adapters: run the backend,
then construct the `Response` with the provider's own name; a
construction failure (blank answer) is an exception like any backend
error. -/
def Provider.generate_answer (p : Provider) (q : Question) : Except String Response :=
  match p.behavior q with
  | Except.error e => Except.error e
  | Except.ok ans =>
    match Response.create p.name q ans with
    | none => Except.error "ValueError"
    | some r => Except.ok r

/-- Python dict assignment `m[k] = v`: overwrite in place when the key is
present, else append the new key at the end. -/
def dictInsert {α : Type} (m : List (String × α)) (k : String) (v : α) :
    List (String × α) :=
  if m.any (fun p => p.1 == k) then
    m.map (fun p => if p.1 == k then (k, v) else p)
  else m ++ [(k, v)]

/-- One iteration of the collector loop of `gather_provider_responses`:
`responses[provider.name] = response` on success and
`responses[provider.name] = None` on any exception. -/
def gatherStep (q : Question) (m : List (String × Option Response))
    (kp : String × Provider) : List (String × Option Response) :=
  dictInsert m kp.2.name (kp.2.generate_answer q).toOption

/-- Model of `gather_provider_responses` of `src/main.py`: iterate the
registry's values in insertion order and record each provider's outcome
under `provider.name` (the registry key itself is never used). -/
def gather_provider_responses (providers : List (String × Provider))
    (question : Question) : List (String × Option Response) :=
  providers.foldl (gatherStep question) []

example : Question.create "  " "i" 0 = none := by decide
example : (Question.create "hi" "i" 0).isSome = true := by decide
example : Response.create "p" ⟨"q", "i", 0⟩ " " = none := by decide

/-! The chat-completion helper `OpenAIClientHelper.ask` of
`src/providers/openai_client_helper.py`. -/

/-- One chat message handed to the helper (role/content dict); only the
number of messages matters to the helper's own logic. -/
structure ChatMsg where
  role : String
  content : String
deriving DecidableEq, Repr

/-- The message inside one completion choice; `content` is `None` or a
string in the backend SDK object. -/
structure CMessage where
  content : Option String
deriving DecidableEq, Repr

/-- One completion choice; the source guards `if not msg`, so the message
is modelled as optional. -/
structure Choice where
  message : Option CMessage
deriving DecidableEq, Repr

/-- The backend `ChatCompletion` object; `getattr(response, "choices",
None)` being falsy is modelled by the empty list. -/
structure ChatCompletion where
  choices : List Choice
deriving DecidableEq, Repr

/-- Outcome of the one network call the helper makes: the timeout expired,
the SDK raised, or a completion object was delivered. -/
inductive BackendOutcome where
  | timeout
  | sdkError (e : String)
  | ok (resp : ChatCompletion)
deriving DecidableEq, Repr

/-- What `ask` hands back on the non-raising paths: an absent result
(`None`), the extracted text, or the raw completion object. -/
inductive AskResult where
  | absent
  | text (s : String)
  | raw (resp : ChatCompletion)
deriving DecidableEq, Repr

/-- Model of `OpenAIClientHelper.ask`: validate the model identifier and
then the message list (raising `ValueError`, i.e. `Except.error`, before
the backend outcome is ever examined); absorb a timeout or SDK error into
an absent result; in raw mode return the delivered object unprocessed;
otherwise return absent on missing choices, missing message, or falsy
(`None` or empty) content, else the stripped content. -/
def OpenAIClientHelper.ask (messages : List ChatMsg) (model : String)
    (return_raw : Bool) (backend : BackendOutcome) : Except String AskResult :=
  if pyStrip model = "" then
    Except.error "OpenAIClientHelper.ask: `model` must be a non-empty string."
  else if messages.length = 0 then
    Except.error "OpenAIClientHelper.ask: `messages` must be a non-empty list."
  else
    match backend with
    | BackendOutcome.timeout => Except.ok AskResult.absent
    | BackendOutcome.sdkError _ => Except.ok AskResult.absent
    | BackendOutcome.ok resp =>
      if return_raw then Except.ok (AskResult.raw resp)
      else
        match resp.choices with
        | [] => Except.ok AskResult.absent
        | choice :: _ =>
          match choice.message with
          | none => Except.ok AskResult.absent
          | some msg =>
            match msg.content with
            | none => Except.ok AskResult.absent
            | some c =>
              if c = "" then Except.ok AskResult.absent
              else Except.ok (AskResult.text (pyStrip c))

/-! The anonymized judge `judge_responses_with_openai` of `src/main.py`.
Its reply goes through `json.loads`; the JSON values and a parser for
them follow.  The parser models `json.loads` on the fragment the judge
protocol uses: numbers are integers (fractions, exponents and the
leading-zero restriction are not modelled) and string escapes cover the
single-character escapes (`\uXXXX` is not modelled). -/

/-- A parsed JSON value (numbers restricted to integers). -/
inductive Jv where
  | jnull
  | jbool (b : Bool)
  | jint (n : Int)
  | jstr (s : String)
  | jarr (xs : List Jv)
  | jobj (kvs : List (String × Jv))
deriving Repr

/-- Drop JSON whitespace (space, tab, LF, CR — exactly Lean's
`Char.isWhitespace`). -/
def skipWs (cs : List Char) : List Char := cs.dropWhile Char.isWhitespace

/-- Single-character JSON string escapes. -/
def escChar (e : Char) : Option Char :=
  if e = 'n' then some '\n'
  else if e = 't' then some '\t'
  else if e = 'r' then some '\r'
  else if e = '"' then some '"'
  else if e = '\\' then some '\\'
  else if e = '/' then some '/'
  else if e = 'b' then some (Char.ofNat 0x08)
  else if e = 'f' then some (Char.ofNat 0x0c)
  else none

/-- Parse the body of a JSON string (the opening quote already consumed),
returning the characters and the rest of the input. -/
def parseJStr : Nat → List Char → Option (List Char × List Char)
  | 0, _ => none
  | fuel + 1, cs =>
    match cs with
    | [] => none
    | '"' :: rest => some ([], rest)
    | '\\' :: e :: rest =>
      match escChar e with
      | some c => (parseJStr fuel rest).map (fun p => (c :: p.1, p.2))
      | none => none
    | c :: rest =>
      if c.toNat < 32 then none
      else (parseJStr fuel rest).map (fun p => (c :: p.1, p.2))

/-- Parse a nonempty run of decimal digits into its value. -/
def parseDigits (cs : List Char) : Option (Nat × List Char) :=
  let ds := cs.takeWhile Char.isDigit
  if ds.isEmpty then none
  else some (ds.foldl (fun a c => a * 10 + (c.toNat - 48)) 0,
    cs.dropWhile Char.isDigit)

mutual

/-- Parse one JSON value, skipping leading whitespace. -/
def parseVal : Nat → List Char → Option (Jv × List Char)
  | 0, _ => none
  | fuel + 1, cs0 =>
    match skipWs cs0 with
    | [] => none
    | '"' :: rest =>
      (parseJStr (fuel + 1) rest).map (fun p => (Jv.jstr (String.mk p.1), p.2))
    | 'n' :: 'u' :: 'l' :: 'l' :: rest => some (Jv.jnull, rest)
    | 't' :: 'r' :: 'u' :: 'e' :: rest => some (Jv.jbool true, rest)
    | 'f' :: 'a' :: 'l' :: 's' :: 'e' :: rest => some (Jv.jbool false, rest)
    | '-' :: rest =>
      (parseDigits rest).map (fun p => (Jv.jint (-(p.1 : Int)), p.2))
    | '[' :: rest =>
      (match skipWs rest with
       | ']' :: r2 => some (Jv.jarr [], r2)
       | cs2 => (parseItems fuel cs2).map (fun p => (Jv.jarr p.1, p.2)))
    | c :: rest =>
      if c = '\x7b' then
        (match skipWs rest with
         | [] => none
         | c2 :: r2 =>
           if c2 = '\x7d' then some (Jv.jobj [], r2)
           else (parseMembers fuel (c2 :: r2)).map
             (fun p => (Jv.jobj p.1, p.2)))
      else if c.isDigit then
        (parseDigits (c :: rest)).map (fun p => (Jv.jint (p.1 : Int), p.2))
      else none

/-- Parse the comma-separated items of a nonempty JSON array up to the
closing bracket. -/
def parseItems : Nat → List Char → Option (List Jv × List Char)
  | 0, _ => none
  | fuel + 1, cs =>
    match parseVal fuel cs with
    | none => none
    | some (v, rest) =>
      match skipWs rest with
      | ',' :: r2 => (parseItems fuel r2).map (fun p => (v :: p.1, p.2))
      | ']' :: r2 => some ([v], r2)
      | _ => none

/-- Parse the members of a nonempty JSON object up to the closing brace
(the input starts at the first key's opening quote). -/
def parseMembers : Nat → List Char → Option (List (String × Jv) × List Char)
  | 0, _ => none
  | fuel + 1, cs =>
    match cs with
    | '"' :: rest =>
      (match parseJStr (fuel + 1) rest with
       | none => none
       | some (k, r1) =>
         match skipWs r1 with
         | ':' :: r2 =>
           (match parseVal fuel r2 with
            | none => none
            | some (v, r3) =>
              match skipWs r3 with
              | ',' :: r4 =>
                (parseMembers fuel (skipWs r4)).map
                  (fun p => ((String.mk k, v) :: p.1, p.2))
              | c :: r4 =>
                if c = '\x7d' then some ([(String.mk k, v)], r4) else none
              | [] => none)
         | _ => none)
    | _ => none

end

/-- Model of `json.loads`: parse one value and require only trailing
whitespace after it. -/
def json_loads (s : String) : Option Jv :=
  match parseVal (2 * s.data.length + 2) s.data with
  | some (v, rest) => if (skipWs rest).isEmpty then some v else none
  | none => none

example : json_loads "" = none := rfl

/-- Python dict lookup on the object built by `json.loads`: with
duplicate keys in the JSON text the later binding wins. -/
def dictGet (kvs : List (String × Jv)) (k : String) : Option Jv :=
  ((kvs.filter (fun p => p.1 == k)).getLast?).map (fun p => p.2)

/-- Model of the judge's parse stage on the reply text:
`data = json.loads(raw); order = data.get("results")` followed by
`isinstance(order, list)`.  A JSON syntax error, a non-object top level
(`.get` raises `AttributeError`), a missing `results` key or a
non-list `results` value all land in the same `except Exception`
branch of the source, so they are merged into `none` here. -/
def parseResults (raw : String) : Option (List Jv) :=
  match json_loads raw with
  | none => none
  | some v =>
    match v with
    | Jv.jobj kvs =>
      match dictGet kvs "results" with
      | some (Jv.jarr xs) => some xs
      | _ => none
    | _ => none

/-- Model of Python `int(s)` on a string: optional surrounding
whitespace, an optional sign, then a nonempty run of decimal digits
(digit-grouping underscores and non-ASCII digits are not modelled). -/
def parseIntPy (s : String) : Option Int :=
  let t := ((s.data.dropWhile Char.isWhitespace).reverse.dropWhile
    Char.isWhitespace).reverse
  match t with
  | '-' :: ds =>
    if ds ≠ [] ∧ ds.all Char.isDigit then
      some (-(ds.foldl (fun a c => a * 10 + (c.toNat - 48)) 0 : Nat))
    else none
  | '+' :: ds =>
    if ds ≠ [] ∧ ds.all Char.isDigit then
      some ((ds.foldl (fun a c => a * 10 + (c.toNat - 48)) 0 : Nat))
    else none
  | ds =>
    if ds ≠ [] ∧ ds.all Char.isDigit then
      some ((ds.foldl (fun a c => a * 10 + (c.toNat - 48)) 0 : Nat))
    else none

/-- Model of `int(str(item))` on a parsed ranking entry: `str` of a
parsed JSON string is the string itself, `str` of a parsed integer is its
decimal form (which `int` maps back to the integer), and `str` of
`True`/`False`/`None` or of any list or dict never parses as an integer. -/
def intOfEntry : Jv → Option Int
  | Jv.jstr s => parseIntPy s
  | Jv.jint n => some n
  | _ => none

/-- The observable events the judge step prints, in order: the skipped
(failed) providers, the not-enough-responses stop, the judge invocation,
the no-reply stop, the parse-failure report carrying the raw reply text,
the ranking header, and per ranking entry either a rank line or one of
the two skip reports of the re-map loop. -/
inductive JudgeEvent where
  | skippedProvider (name : String)
  | notEnoughResponses
  | judgeAsked
  | noJudgeReply
  | parseFailure (raw : String)
  | rankingHeader
  | invalidIdentifier (rank : Nat) (item : Jv)
  | unknownCompetitor (rank : Nat) (num : Int)
  | rankLine (rank : Nat) (provider : String) (num : Int)
deriving Repr

/-- Association-list lookup modelling `numbered_to_provider.get(num)`
(the keys are distinct by construction, so first match is dict lookup). -/
def lookupNum (nm : List (Int × String)) (n : Int) : Option String :=
  match nm with
  | [] => none
  | p :: rest => if p.1 = n then some p.2 else lookupNum rest n

/-- One iteration of the re-map loop: try `int(str(item))` (a
`ValueError` prints the invalid-identifier line and continues), then
`numbered_to_provider.get(num)` with the source's falsy test
`if not provider_name` (absent key, or an empty-string name, prints the
unknown-competitor line and continues), else print the rank line. -/
def processEntry (nm : List (Int × String)) (rank : Nat) (item : Jv) :
    JudgeEvent :=
  match intOfEntry item with
  | none => JudgeEvent.invalidIdentifier rank item
  | some num =>
    match lookupNum nm num with
    | none => JudgeEvent.unknownCompetitor rank num
    | some p =>
      if p = "" then JudgeEvent.unknownCompetitor rank num
      else JudgeEvent.rankLine rank p num

/-- The re-map loop `for rank, item in enumerate(order, start=1)`. -/
def remap (nm : List (Int × String)) (rank : Nat) : List Jv → List JudgeEvent
  | [] => []
  | item :: rest => processEntry nm rank item :: remap nm (rank + 1) rest

/-- The providers whose collected response is absent, in mapping order
(`failed_providers` in the source). -/
def failedNames (responses : List (String × Option Response)) : List String :=
  (responses.filter (fun p => p.2.isNone)).map (fun p => p.1)

/-- The `competitors` list: the entries of the collected-responses
mapping with a present response, in mapping order. -/
def competitorsOf (responses : List (String × Option Response)) :
    List (String × Response) :=
  responses.filterMap (fun p =>
    match p.2 with
    | some r => some (p.1, r)
    | none => none)

/-- The `numbered_to_provider` dict: competitor numbers assigned from
`start` upward in competitor-list order (`enumerate(competitors,
start=1)` uses `start = 1`). -/
def buildNumbered (start : Int) : List (String × Response) →
    List (Int × String)
  | [] => []
  | c :: rest => (start, c.1) :: buildNumbered (start + 1) rest

/-- Model of `judge_responses_with_openai` of `src/main.py` as the list
of events it prints.  The judge's chat call is the explicit `reply`
parameter (`None` for an absent helper result); the prompt construction
and the helper instantiation carry no logic of their own and are outside
the model.  `if not raw` in the source is falsy on both `None` and the
empty string. -/
def judge_responses_with_openai (responses : List (String × Option Response))
    (reply : Option String) : List JudgeEvent :=
  let skipped := (failedNames responses).map JudgeEvent.skippedProvider
  let competitors := competitorsOf responses
  if competitors.length < 2 then
    skipped ++ [JudgeEvent.notEnoughResponses]
  else
    let numbered := buildNumbered 1 competitors
    skipped ++ JudgeEvent.judgeAsked ::
      (match reply with
       | none => [JudgeEvent.noJudgeReply]
       | some raw =>
         if raw = "" then [JudgeEvent.noJudgeReply]
         else
           match parseResults raw with
           | none => [JudgeEvent.parseFailure raw]
           | some order => JudgeEvent.rankingHeader :: remap numbered 1 order)

example :
    parseResults "\x7b\"results\": [\"2\", \"1\"]\x7d" =
      some [Jv.jstr "2", Jv.jstr "1"] := rfl

example : parseResults "not json" = none := rfl

example : parseResults "[\"2\", \"1\"]" = none := rfl

/-- The integer interval `[start, start + n)` as a list, used to state
what the competitor numbers of one judge invocation are. -/
def intRange (start : Int) (n : Nat) : List Int :=
  (List.range n).map (fun (i : Nat) => start + (i : Int))

/-! Concrete fixtures used by witnesses and counterexamples. -/

/-- A concrete valid question. -/
def q0 : Question := ⟨"What is 2+2?", "qid-1", 0⟩

/-- A concrete response attributed to `openai`. -/
def rOpenai : Response := ⟨"openai", q0, "4"⟩

/-- A concrete response attributed to `groq`. -/
def rGroq : Response := ⟨"groq", q0, "four"⟩

/-- A collected-responses mapping with two present responses. -/
def responsesTwo : List (String × Option Response) :=
  [("openai", some rOpenai), ("groq", some rGroq)]

/-- A provider registered under a key different from its name, whose
backend raises. -/
def provX : Provider := ⟨"bar", fun _ => Except.error "boom"⟩

/-- A provider whose backend answers. -/
def provA : Provider := ⟨"alpha", fun _ => Except.ok "hello"⟩

/-- A provider whose backend raises. -/
def provB : Provider := ⟨"beta", fun _ => Except.error "down"⟩

/-- A registry in which each provider is registered under its own name. -/
def registry0 : List (String × Provider) := [("alpha", provA), ("beta", provB)]

example :
    judge_responses_with_openai
      [("openai", some rOpenai), ("groq", some rGroq), ("gemini", none)]
      (some "\x7b\"results\": [\"2\", \"1\"]\x7d") =
      [JudgeEvent.skippedProvider "gemini", JudgeEvent.judgeAsked,
       JudgeEvent.rankingHeader,
       JudgeEvent.rankLine 1 "groq" 2, JudgeEvent.rankLine 2 "openai" 1] := rfl

/-- C2 counterexample: the single-space text is a non-empty string, yet
constructing a Question from it fails, so "for every non-empty string
text, constructing a Question with that text succeeds" is false as
stated. -/
theorem c2_counterexample :
    Question.create " " "qid" 0 = none ∧ " " ≠ "" := ⟨rfl, by decide⟩

/-- C2 (amended: construction succeeds for every string that strips to a
non-empty result, i.e. contains a non-whitespace character, rather than
for every non-empty string): such a Question is constructed with the
given text, and for every length `n` its `short_preview n` is the full
text when the text has at most `n` characters and otherwise the first
`n` characters followed by the `"..."` ellipsis marker. -/
theorem c2_question_preview (text id : String) (t : Int)
    (h : pyStrip text ≠ "") :
    ∃ q : Question, Question.create text id t = some q ∧ q.text = text ∧
      ∀ n : Nat, q.short_preview n =
        if text.data.length ≤ n then text
        else String.mk (text.data.take n) ++ "..." := by
  refine ⟨⟨text, id, t⟩, ?_, rfl, ?_⟩
  · simp [Question.create, h]
  · intro n; rfl

/-- C2 witness: the amended theorem applied to the text `"hello"`. -/
theorem c2_witness :
    pyStrip "hello" ≠ "" ∧
    (∃ q : Question, Question.create "hello" "qid" 0 = some q ∧
      q.text = "hello" ∧
      ∀ n : Nat, q.short_preview n =
        if "hello".data.length ≤ n then "hello"
        else String.mk ("hello".data.take n) ++ "...") :=
  ⟨by decide, c2_question_preview "hello" "qid" 0 (by decide)⟩

/-- C8: a Question whose text strips to nothing is rejected, a Response
with blank provider or blank answer is rejected, and every successfully
constructed Response carries exactly the Question that was passed in. -/
theorem c8_validation :
    (∀ t i : String, ∀ ct : Int, pyStrip t = "" →
      Question.create t i ct = none) ∧
    (∀ p a : String, ∀ q : Question, pyStrip p = "" →
      Response.create p q a = none) ∧
    (∀ p a : String, ∀ q : Question, pyStrip a = "" →
      Response.create p q a = none) ∧
    (∀ p a : String, ∀ q : Question, ∀ r : Response,
      Response.create p q a = some r → r.question = q) := by
  refine ⟨?_, ?_, ?_, ?_⟩
  · intro t i ct h; simp [Question.create, h]
  · intro p a q h; simp [Response.create, h]
  · intro p a q h; simp [Response.create, h]
  · intro p a q r h
    unfold Response.create at h
    by_cases h1 : pyStrip p = "" <;> by_cases h2 : pyStrip a = "" <;>
      simp [h1, h2] at h
    rw [← h]

/-- C8 witness: the validation theorem applied to concrete blank and
valid inputs. -/
theorem c8_witness :
    Question.create "  " "qid" 0 = none ∧
    Response.create " " q0 "answer" = none ∧
    Response.create "openai" q0 "\t" = none ∧
    (⟨"openai", q0, "4"⟩ : Response).question = q0 :=
  ⟨c8_validation.1 "  " "qid" 0 rfl,
   c8_validation.2.1 " " "answer" q0 rfl,
   c8_validation.2.2.1 "openai" "\t" q0 rfl,
   c8_validation.2.2.2 "openai" "4" q0 ⟨"openai", q0, "4"⟩ rfl⟩

/-- C10: in text mode, whitespace-only non-empty content passes the
falsy content check (`not getattr(msg, "content", None)` is false for a
non-empty string) and is then stripped, so `ask` returns the empty
string rather than the absent result. -/
theorem c10_whitespace_content (messages : List ChatMsg) (model c : String)
    (rest : List Choice)
    (hm : pyStrip model ≠ "") (hmsg : messages.length ≠ 0)
    (hc : c ≠ "") (hw : pyStrip c = "") :
    OpenAIClientHelper.ask messages model false
      (BackendOutcome.ok ⟨⟨some ⟨some c⟩⟩ :: rest⟩) =
      Except.ok (AskResult.text "") := by
  simp [OpenAIClientHelper.ask, hm, hmsg, hc, hw]

/-- C10 witness: the theorem applied to a single-space content string. -/
theorem c10_witness :
    OpenAIClientHelper.ask [⟨"user", "hi"⟩] "gpt-4" false
      (BackendOutcome.ok ⟨[⟨some ⟨some " "⟩⟩]⟩) =
      Except.ok (AskResult.text "") :=
  c10_whitespace_content [⟨"user", "hi"⟩] "gpt-4" " " []
    (by decide) (by decide) (by decide) rfl

/-- C6 counterexample: with `return_raw=True` a delivered completion
whose first message has no content is returned as the raw object, not as
the absent result, so "for every response with empty or missing content
it returns an absent result" is false as stated. -/
theorem c6_counterexample :
    OpenAIClientHelper.ask [⟨"user", "hi"⟩] "gpt-4" true
      (BackendOutcome.ok ⟨[⟨some ⟨none⟩⟩]⟩) =
      Except.ok (AskResult.raw ⟨[⟨some ⟨none⟩⟩]⟩) ∧
    Except.ok (AskResult.raw (⟨[⟨some ⟨none⟩⟩]⟩ : ChatCompletion)) ≠
      (Except.ok AskResult.absent : Except String AskResult) :=
  ⟨rfl, by simp⟩

/-- C6 (amended: the absent result on empty or missing content holds in
text mode; in raw mode a delivered response is returned unprocessed while
timeouts and backend errors still yield the absent result): `ask` raises
before the backend outcome is ever examined when the message list is
empty or the model identifier is blank (the result is the same error for
every backend outcome), and no exception escapes on a timeout, a backend
error, or — in text mode — missing choices, a missing message, or falsy
content. -/
theorem c6_ask_contract :
    (∀ (messages : List ChatMsg) (model : String) (rr : Bool)
      (b b2 : BackendOutcome),
      pyStrip model = "" ∨ messages.length = 0 →
      (∃ e, OpenAIClientHelper.ask messages model rr b = Except.error e) ∧
        OpenAIClientHelper.ask messages model rr b =
          OpenAIClientHelper.ask messages model rr b2) ∧
    (∀ (messages : List ChatMsg) (model : String) (rr : Bool),
      pyStrip model ≠ "" → messages.length ≠ 0 →
      OpenAIClientHelper.ask messages model rr BackendOutcome.timeout =
        Except.ok AskResult.absent ∧
      ∀ e, OpenAIClientHelper.ask messages model rr (BackendOutcome.sdkError e) =
        Except.ok AskResult.absent) ∧
    (∀ (messages : List ChatMsg) (model : String),
      pyStrip model ≠ "" → messages.length ≠ 0 →
      OpenAIClientHelper.ask messages model false (BackendOutcome.ok ⟨[]⟩) =
        Except.ok AskResult.absent ∧
      (∀ rest, OpenAIClientHelper.ask messages model false
        (BackendOutcome.ok ⟨⟨none⟩ :: rest⟩) = Except.ok AskResult.absent) ∧
      (∀ rest, OpenAIClientHelper.ask messages model false
        (BackendOutcome.ok ⟨⟨some ⟨none⟩⟩ :: rest⟩) =
          Except.ok AskResult.absent) ∧
      (∀ rest, OpenAIClientHelper.ask messages model false
        (BackendOutcome.ok ⟨⟨some ⟨some ""⟩⟩ :: rest⟩) =
          Except.ok AskResult.absent)) ∧
    (∀ (messages : List ChatMsg) (model : String) (resp : ChatCompletion),
      pyStrip model ≠ "" → messages.length ≠ 0 →
      OpenAIClientHelper.ask messages model true (BackendOutcome.ok resp) =
        Except.ok (AskResult.raw resp)) := by
  refine ⟨?_, ?_, ?_, ?_⟩
  · intro messages model rr b b2 h
    rcases h with h | h
    · simp [OpenAIClientHelper.ask, h]
    · by_cases hm : pyStrip model = "" <;> simp [OpenAIClientHelper.ask, h, hm]
  · intro messages model rr hm hmsg
    exact ⟨by simp [OpenAIClientHelper.ask, hm, hmsg],
      fun e => by simp [OpenAIClientHelper.ask, hm, hmsg]⟩
  · intro messages model hm hmsg
    refine ⟨by simp [OpenAIClientHelper.ask, hm, hmsg], ?_, ?_, ?_⟩ <;>
      intro rest <;> simp [OpenAIClientHelper.ask, hm, hmsg]
  · intro messages model resp hm hmsg
    simp [OpenAIClientHelper.ask, hm, hmsg]

/-- C6 witness: the amended contract applied to concrete inputs — a
blank model raises for any backend outcome, and a valid call absorbs a
timeout into the absent result. -/
theorem c6_witness :
    ((∃ e, OpenAIClientHelper.ask [⟨"user", "hi"⟩] " " false
        BackendOutcome.timeout = Except.error e) ∧
      OpenAIClientHelper.ask [⟨"user", "hi"⟩] " " false BackendOutcome.timeout =
        OpenAIClientHelper.ask [⟨"user", "hi"⟩] " " false
          (BackendOutcome.sdkError "x")) ∧
    OpenAIClientHelper.ask [⟨"user", "hi"⟩] "gpt-4" false
      BackendOutcome.timeout = Except.ok AskResult.absent :=
  ⟨c6_ask_contract.1 [⟨"user", "hi"⟩] " " false BackendOutcome.timeout
      (BackendOutcome.sdkError "x") (Or.inl rfl),
   (c6_ask_contract.2.1 [⟨"user", "hi"⟩] "gpt-4" false
      (by decide) (by decide)).1⟩

/-- C5: with fewer than two present responses the judge reports the
skipped providers and the not-enough-responses condition, never invokes
the judge, emits no rank line, and (being a total function of its
inputs) terminates normally — the early return precedes the prompt
construction and the helper instantiation in the source. -/
theorem c5_gate (responses : List (String × Option Response))
    (reply : Option String)
    (h : (competitorsOf responses).length < 2) :
    judge_responses_with_openai responses reply =
      (failedNames responses).map JudgeEvent.skippedProvider ++
        [JudgeEvent.notEnoughResponses] ∧
    JudgeEvent.judgeAsked ∉ judge_responses_with_openai responses reply ∧
    ∀ rank : Nat, ∀ p : String, ∀ n : Int,
      JudgeEvent.rankLine rank p n ∉
        judge_responses_with_openai responses reply := by
  have he : judge_responses_with_openai responses reply =
      (failedNames responses).map JudgeEvent.skippedProvider ++
        [JudgeEvent.notEnoughResponses] := by
    simp [judge_responses_with_openai, h]
  refine ⟨he, ?_, ?_⟩
  · rw [he]; simp
  · intro rank p n; rw [he]; simp

/-- C5 witness: the gate theorem applied to a mapping with a single
present response (one success, one failure). -/
theorem c5_witness :
    judge_responses_with_openai [("openai", some rOpenai), ("gemini", none)]
        (some "\x7b\"results\": [\"1\"]\x7d") =
      (failedNames [("openai", some rOpenai), ("gemini", none)]).map
        JudgeEvent.skippedProvider ++ [JudgeEvent.notEnoughResponses] ∧
    JudgeEvent.judgeAsked ∉
      judge_responses_with_openai [("openai", some rOpenai), ("gemini", none)]
        (some "\x7b\"results\": [\"1\"]\x7d") ∧
    ∀ rank : Nat, ∀ p : String, ∀ n : Int,
      JudgeEvent.rankLine rank p n ∉
        judge_responses_with_openai [("openai", some rOpenai), ("gemini", none)]
          (some "\x7b\"results\": [\"1\"]\x7d") :=
  c5_gate [("openai", some rOpenai), ("gemini", none)]
    (some "\x7b\"results\": [\"1\"]\x7d") (by decide)

/-- C4 counterexample: the empty string is a reply text (not an absent
reply) that is not valid JSON, yet the judge reports "no response" for
it and never reports a parse failure carrying the raw text, so the
claim's parse-failure clause is false as stated. -/
theorem c4_counterexample :
    json_loads "" = none ∧
    judge_responses_with_openai responsesTwo (some "") =
      [JudgeEvent.judgeAsked, JudgeEvent.noJudgeReply] ∧
    JudgeEvent.parseFailure "" ∉
      judge_responses_with_openai responsesTwo (some "") := by
  refine ⟨rfl, rfl, ?_⟩
  have he : judge_responses_with_openai responsesTwo (some "") =
      [JudgeEvent.judgeAsked, JudgeEvent.noJudgeReply] := rfl
  rw [he]; simp

/-- C4 (amended: an absent reply and an empty reply text are both
reported as "no response", since the source's `if not raw` test is falsy
on both; the parse-failure report applies to nonempty reply text): past
the gate, an absent or empty reply stops with the no-response report,
and a nonempty reply that does not parse as JSON with a `results` list
stops with the parse-failure report carrying the raw text; in every such
case no ranking header and no rank line is emitted and the function
returns a value (never raises). -/
theorem c4_parse_stage (responses : List (String × Option Response))
    (h2 : ¬ (competitorsOf responses).length < 2) :
    (judge_responses_with_openai responses none =
      (failedNames responses).map JudgeEvent.skippedProvider ++
        [JudgeEvent.judgeAsked, JudgeEvent.noJudgeReply]) ∧
    (judge_responses_with_openai responses (some "") =
      (failedNames responses).map JudgeEvent.skippedProvider ++
        [JudgeEvent.judgeAsked, JudgeEvent.noJudgeReply]) ∧
    (∀ raw : String, raw ≠ "" → parseResults raw = none →
      judge_responses_with_openai responses (some raw) =
        (failedNames responses).map JudgeEvent.skippedProvider ++
          [JudgeEvent.judgeAsked, JudgeEvent.parseFailure raw]) ∧
    (∀ raw : String, raw ≠ "" → parseResults raw = none →
      JudgeEvent.rankingHeader ∉
        judge_responses_with_openai responses (some raw) ∧
      ∀ rank : Nat, ∀ p : String, ∀ n : Int,
        JudgeEvent.rankLine rank p n ∉
          judge_responses_with_openai responses (some raw)) := by
  refine ⟨?_, ?_, ?_, ?_⟩
  · simp [judge_responses_with_openai, h2]
  · simp [judge_responses_with_openai, h2]
  · intro raw hne hpr
    simp [judge_responses_with_openai, h2, hne, hpr]
  · intro raw hne hpr
    have he : judge_responses_with_openai responses (some raw) =
        (failedNames responses).map JudgeEvent.skippedProvider ++
          [JudgeEvent.judgeAsked, JudgeEvent.parseFailure raw] := by
      simp [judge_responses_with_openai, h2, hne, hpr]
    constructor
    · rw [he]; simp
    · intro rank p n; rw [he]; simp

/-- C4 witness: the amended theorem applied to two present responses and
the non-JSON reply `"not json"`. -/
theorem c4_witness :
    (judge_responses_with_openai responsesTwo none =
      (failedNames responsesTwo).map JudgeEvent.skippedProvider ++
        [JudgeEvent.judgeAsked, JudgeEvent.noJudgeReply]) ∧
    judge_responses_with_openai responsesTwo (some "not json") =
      (failedNames responsesTwo).map JudgeEvent.skippedProvider ++
        [JudgeEvent.judgeAsked, JudgeEvent.parseFailure "not json"] :=
  ⟨(c4_parse_stage responsesTwo (by decide)).1,
   (c4_parse_stage responsesTwo (by decide)).2.2.1 "not json"
     (by decide) rfl⟩

/-- A successful `generate_answer` yields a Response carrying the
provider's own name and the question that was passed in (every concrete
adapter constructs `Response(provider=self.name, question=question,
...)`). -/
lemma generate_answer_ok {p : Provider} {q : Question} {r : Response}
    (h : p.generate_answer q = Except.ok r) :
    r.provider = p.name ∧ r.question = q := by
  unfold Provider.generate_answer at h
  split at h
  · cases h
  · rename_i ans hb
    split at h
    · cases h
    · rename_i r' hc
      cases h
      unfold Response.create at hc
      by_cases h1 : pyStrip p.name = "" <;> by_cases h2 : pyStrip ans = "" <;>
        simp [h1, h2] at hc
      rw [← hc]
      exact ⟨rfl, rfl⟩

/-- The collector loop starting from an accumulated mapping whose keys
avoid the remaining providers' names appends one entry per provider, in
iteration order, keyed by the provider's name. -/
lemma gather_foldl (q : Question) (registry : List (String × Provider)) :
    ∀ m : List (String × Option Response),
    (∀ kp ∈ registry, ∀ pr ∈ m, pr.1 ≠ kp.2.name) →
    (registry.map (fun kp => kp.2.name)).Nodup →
    registry.foldl (gatherStep q) m =
      m ++ registry.map
        (fun kp => (kp.2.name, (kp.2.generate_answer q).toOption)) := by
  induction registry with
  | nil => intro m _ _; simp
  | cons kp rest ih =>
    intro m hdisj hnd
    have hnotin : m.any (fun pr => pr.1 == kp.2.name) = false := by
      rw [List.any_eq_false]
      intro pr hpr
      simpa using hdisj kp (List.mem_cons_self _ _) pr hpr
    have hstep : gatherStep q m kp =
        m ++ [(kp.2.name, (kp.2.generate_answer q).toOption)] := by
      simp [gatherStep, dictInsert, hnotin]
    have hnd' : kp.2.name ∉ rest.map (fun x => x.2.name) ∧
        (rest.map (fun x => x.2.name)).Nodup := by
      rw [List.map_cons, List.nodup_cons] at hnd
      exact hnd
    simp only [List.foldl_cons, List.map_cons, hstep]
    rw [ih (m ++ [(kp.2.name, (kp.2.generate_answer q).toOption)]) ?_ hnd'.2]
    · simp
    · intro kp' hkp' pr hpr
      rcases List.mem_append.mp hpr with hm | hm
      · exact hdisj kp' (List.mem_cons_of_mem _ hkp') pr hm
      · have hpr1 : pr.1 = kp.2.name := by
          simp at hm
          rw [hm]
        rw [hpr1]
        intro he
        exact hnd'.1 (he ▸ List.mem_map_of_mem (fun x => x.2.name) hkp')

/-- C1 counterexample: a provider registered under the key `"foo"` but
named `"bar"` is recorded under `"bar"`, so the returned mapping does
not have an entry per registered provider key as the claim states. -/
theorem c1_counterexample :
    (gather_provider_responses [("foo", provX)] q0).map (fun p => p.1) =
      ["bar"] ∧
    "foo" ∉ (gather_provider_responses [("foo", provX)] q0).map
      (fun p => p.1) := ⟨rfl, by decide⟩

/-- C1 (amended: the mapping is keyed by each provider's `name`
attribute, so the per-registered-key reading holds for registries whose
providers are registered under their own names, as the program's
registry is): for such a registry the collector returns exactly one
entry per registered key, in registry order; a provider whose call
raised maps to `none`, a provider whose call succeeded maps to its
Response, whose `provider` field equals that provider's name; and every
provider's outcome is recorded, so no failure prevents the remaining
providers from being invoked. -/
theorem c1_collector (registry : List (String × Provider)) (q : Question)
    (hn : ∀ kp ∈ registry, kp.1 = kp.2.name)
    (hd : (registry.map (fun kp => kp.1)).Nodup) :
    gather_provider_responses registry q =
      registry.map (fun kp => (kp.1, (kp.2.generate_answer q).toOption)) ∧
    ∀ kp ∈ registry, ∀ r : Response,
      kp.2.generate_answer q = Except.ok r → r.provider = kp.1 := by
  have hmaps : registry.map (fun kp => kp.2.name) =
      registry.map (fun kp => kp.1) :=
    List.map_congr_left (fun kp h => (hn kp h).symm)
  constructor
  · have hfold := gather_foldl q registry [] (by simp) (by rw [hmaps]; exact hd)
    unfold gather_provider_responses
    rw [hfold]
    simp only [List.nil_append]
    exact List.map_congr_left (fun kp h => by rw [hn kp h])
  · intro kp hkp r hr
    rw [hn kp hkp]
    exact (generate_answer_ok hr).1

/-- C1 witness: the amended theorem applied to a registry holding one
succeeding and one failing provider, each registered under its name. -/
theorem c1_witness :
    gather_provider_responses registry0 q0 =
      registry0.map (fun kp => (kp.1, (kp.2.generate_answer q0).toOption)) ∧
    ∀ kp ∈ registry0, ∀ r : Response,
      kp.2.generate_answer q0 = Except.ok r → r.provider = kp.1 :=
  c1_collector registry0 q0
    (by intro kp hkp; fin_cases hkp <;> rfl) (by decide)

/-- The integer interval peels off its first element. -/
lemma intRange_succ (start : Int) (n : Nat) :
    intRange start (n + 1) = start :: intRange (start + 1) n := by
  unfold intRange
  rw [List.range_succ_eq_map]
  rw [List.map_cons, List.map_map]
  refine congrArg₂ List.cons (by simp) ?_
  apply List.map_congr_left
  intro i _
  simp only [Function.comp_apply]
  push_cast
  ring

/-- The competitor numbers assigned from `start` are the integer
interval of the competitors' count. -/
lemma buildNumbered_fst (cs : List (String × Response)) :
    ∀ start : Int, (buildNumbered start cs).map (fun p => p.1) =
      intRange start cs.length := by
  induction cs with
  | nil => intro start; simp [buildNumbered, intRange]
  | cons c rest ih =>
    intro start
    rw [List.length_cons, intRange_succ]
    simp only [buildNumbered, List.map_cons, ih]

/-- The providers paired with competitor numbers are exactly the
competitor names, in order. -/
lemma buildNumbered_snd (cs : List (String × Response)) :
    ∀ start : Int, (buildNumbered start cs).map (fun p => p.2) =
      cs.map (fun c => c.1) := by
  induction cs with
  | nil => intro start; simp [buildNumbered]
  | cons c rest ih => intro start; simp [buildNumbered, ih]

/-- Membership in the competitors list comes from a present response in
the collected mapping. -/
lemma competitorsOf_mem {responses : List (String × Option Response)}
    {k : String} {r : Response} (h : (k, r) ∈ competitorsOf responses) :
    (k, some r) ∈ responses := by
  unfold competitorsOf at h
  rcases List.mem_filterMap.mp h with ⟨⟨k', o⟩, hmem, heq⟩
  cases o with
  | none => simp at heq
  | some r' =>
    simp only [Option.some.injEq] at heq
    cases heq
    exact hmem

/-- The competitor names are the present-response keys of the collected
mapping, in its order. -/
lemma competitorsOf_fst (responses : List (String × Option Response)) :
    (competitorsOf responses).map (fun c => c.1) =
      (responses.filter (fun p => p.2.isSome)).map (fun p => p.1) := by
  induction responses with
  | nil => simp [competitorsOf]
  | cons p rest ih =>
    cases hp : p.2 with
    | none =>
      simp only [competitorsOf, List.filterMap_cons, List.filter_cons, hp] at ih ⊢
      simpa using ih
    | some r =>
      simp only [competitorsOf, List.filterMap_cons, List.filter_cons, hp] at ih ⊢
      simpa using ih

/-- The competitor names form a sublist of the collected mapping's keys. -/
lemma competitorsOf_fst_sublist (responses : List (String × Option Response)) :
    ((competitorsOf responses).map (fun c => c.1)).Sublist
      (responses.map (fun p => p.1)) := by
  induction responses with
  | nil => simp [competitorsOf]
  | cons p rest ih =>
    cases hp : p.2 with
    | none =>
      simp only [competitorsOf, List.filterMap_cons, hp, List.map_cons] at ih ⊢
      exact List.Sublist.cons _ ih
    | some r =>
      simp only [competitorsOf, List.filterMap_cons, hp, List.map_cons] at ih ⊢
      exact List.Sublist.cons₂ _ ih

/-- The integer interval has no duplicates. -/
lemma intRange_nodup (start : Int) (n : Nat) : (intRange start n).Nodup := by
  unfold intRange
  refine List.Nodup.map ?_ (List.nodup_range n)
  intro a b h
  simp only at h
  have h2 := add_left_cancel h
  exact_mod_cast h2

/-- C7: past the filter, the `numbered_to_provider` mapping pairs the
competitor numbers `1..N` (in increasing order, `N` the number of
present responses) with exactly the provider keys whose response is
present, in the relative order of the collected-responses mapping; both
sides of the pairing are duplicate-free (a bijection), and no number is
assigned to a provider whose response was absent.  The mapping never
changes afterward: `judge_responses_with_openai` threads the one value
built here into the re-map loop unchanged. -/
theorem c7_anonymization (responses : List (String × Option Response))
    (hd : (responses.map (fun p => p.1)).Nodup) :
    (buildNumbered 1 (competitorsOf responses)).map (fun p => p.1) =
      intRange 1 (competitorsOf responses).length ∧
    (buildNumbered 1 (competitorsOf responses)).map (fun p => p.2) =
      (responses.filter (fun p => p.2.isSome)).map (fun p => p.1) ∧
    (∀ np ∈ buildNumbered 1 (competitorsOf responses),
      ∃ r : Response, (np.2, some r) ∈ responses) ∧
    ((buildNumbered 1 (competitorsOf responses)).map (fun p => p.1)).Nodup ∧
    ((buildNumbered 1 (competitorsOf responses)).map (fun p => p.2)).Nodup := by
  refine ⟨buildNumbered_fst _ 1, ?_, ?_, ?_, ?_⟩
  · rw [buildNumbered_snd _ 1]
    exact competitorsOf_fst responses
  · intro np hnp
    have h2 : np.2 ∈ (buildNumbered 1 (competitorsOf responses)).map
        (fun p => p.2) := List.mem_map_of_mem _ hnp
    rw [buildNumbered_snd _ 1] at h2
    rcases List.mem_map.mp h2 with ⟨c, hc, hceq⟩
    exact ⟨c.2, hceq ▸ competitorsOf_mem (by simpa using hc)⟩
  · rw [buildNumbered_fst _ 1]
    exact intRange_nodup 1 _
  · rw [buildNumbered_snd _ 1]
    exact (competitorsOf_fst_sublist responses).nodup hd

/-- C7 witness: the theorem applied to a three-entry mapping with one
absent response; the numbers `1, 2` go to `openai` and `groq`. -/
theorem c7_witness :
    (buildNumbered 1 (competitorsOf
        [("openai", some rOpenai), ("gemini", none), ("groq", some rGroq)])).map
      (fun p => p.1) =
      intRange 1 (competitorsOf
        [("openai", some rOpenai), ("gemini", none),
         ("groq", some rGroq)]).length ∧
    (buildNumbered 1 (competitorsOf
        [("openai", some rOpenai), ("gemini", none), ("groq", some rGroq)])).map
      (fun p => p.2) =
      ([("openai", some rOpenai), ("gemini", none),
        ("groq", some rGroq)].filter (fun p => p.2.isSome)).map
        (fun p => p.1) ∧
    (∀ np ∈ buildNumbered 1 (competitorsOf
        [("openai", some rOpenai), ("gemini", none), ("groq", some rGroq)]),
      ∃ r : Response, (np.2, some r) ∈
        [("openai", some rOpenai), ("gemini", none), ("groq", some rGroq)]) ∧
    ((buildNumbered 1 (competitorsOf
        [("openai", some rOpenai), ("gemini", none),
         ("groq", some rGroq)])).map (fun p => p.1)).Nodup ∧
    ((buildNumbered 1 (competitorsOf
        [("openai", some rOpenai), ("gemini", none),
         ("groq", some rGroq)])).map (fun p => p.2)).Nodup :=
  c7_anonymization
    [("openai", some rOpenai), ("gemini", none), ("groq", some rGroq)]
    (by decide)

/-- The re-map loop emits exactly one event per ranking entry. -/
lemma remap_length (nm : List (Int × String)) (rank : Nat) (order : List Jv) :
    (remap nm rank order).length = order.length := by
  induction order generalizing rank with
  | nil => rfl
  | cons item rest ih => simp [remap, ih]

/-- The event at position `i` of the re-map loop's output is the
processing of the entry at position `i`, at rank `rank + i`. -/
lemma remap_get (nm : List (Int × String)) (order : List Jv) :
    ∀ rank i : Nat, (remap nm rank order)[i]? =
      (order[i]?).map (fun item => processEntry nm (rank + i) item) := by
  induction order with
  | nil => intro rank i; simp [remap]
  | cons item rest ih =>
    intro rank i
    cases i with
    | zero => simp [remap]
    | succ i' =>
      simp only [remap, List.getElem?_cons_succ, ih]
      rw [(by omega : rank + (i' + 1) = rank + 1 + i')]

/-- A successful `numbered_to_provider` lookup returns a value of the
mapping. -/
lemma lookupNum_mem {nm : List (Int × String)} {n : Int} {p : String} :
    lookupNum nm n = some p → (n, p) ∈ nm := by
  induction nm with
  | nil => intro h; cases h
  | cons q rest ih =>
    intro h
    unfold lookupNum at h
    by_cases hq : q.1 = n
    · simp only [hq, if_pos rfl, Option.some.injEq] at h
      cases q
      cases hq
      cases h
      exact List.mem_cons_self _ _
    · rw [if_neg hq] at h
      exact List.mem_cons_of_mem _ (ih h)

/-- C3: over a `numbered_to_provider` mapping whose provider names are
non-empty (they come from validated provider names in the program), the
re-map loop classifies every entry of the parsed ranking in list order —
one output event per entry, so a skipped entry never aborts the loop: an
entry that `int(str(item))` cannot parse yields the invalid-identifier
report at its 1-based rank, an integer entry with no corresponding
competitor number yields the unknown-competitor report, and every other
entry yields the rank line naming the provider mapped from that
competitor number. -/
theorem c3_remap_loop (nm : List (Int × String)) (order : List Jv)
    (hv : ∀ p ∈ nm, p.2 ≠ "") :
    (remap nm 1 order).length = order.length ∧
    ∀ (i : Nat) (item : Jv), order[i]? = some item →
      ((intOfEntry item = none →
        (remap nm 1 order)[i]? =
          some (JudgeEvent.invalidIdentifier (i + 1) item)) ∧
       (∀ n : Int, intOfEntry item = some n → lookupNum nm n = none →
        (remap nm 1 order)[i]? =
          some (JudgeEvent.unknownCompetitor (i + 1) n)) ∧
       (∀ (n : Int) (p : String), intOfEntry item = some n →
        lookupNum nm n = some p →
        (remap nm 1 order)[i]? =
          some (JudgeEvent.rankLine (i + 1) p n))) := by
  refine ⟨remap_length nm 1 order, ?_⟩
  intro i item hitem
  have hg := remap_get nm order 1 i
  rw [hitem] at hg
  rw [(by omega : 1 + i = i + 1)] at hg
  simp only [Option.map_some'] at hg
  refine ⟨?_, ?_, ?_⟩
  · intro hnone
    rw [hg]
    simp [processEntry, hnone]
  · intro n hn hl
    rw [hg]
    simp [processEntry, hn, hl]
  · intro n p hn hl
    have hp : p ≠ "" := hv (n, p) (lookupNum_mem hl)
    rw [hg]
    simp [processEntry, hn, hl, hp]

/-- C3 witness: the theorem applied to a two-competitor mapping and a
ranking holding a valid entry, a non-integer entry, and an unknown
number. -/
theorem c3_witness :
    ((remap [(1, "openai"), (2, "groq")] 1
        [Jv.jstr "2", Jv.jnull, Jv.jstr "7"]).length =
      [Jv.jstr "2", Jv.jnull, Jv.jstr "7"].length) ∧
    ((remap [(1, "openai"), (2, "groq")] 1
        [Jv.jstr "2", Jv.jnull, Jv.jstr "7"])[0]? =
      some (JudgeEvent.rankLine 1 "groq" 2)) ∧
    ((remap [(1, "openai"), (2, "groq")] 1
        [Jv.jstr "2", Jv.jnull, Jv.jstr "7"])[1]? =
      some (JudgeEvent.invalidIdentifier 2 Jv.jnull)) ∧
    ((remap [(1, "openai"), (2, "groq")] 1
        [Jv.jstr "2", Jv.jnull, Jv.jstr "7"])[2]? =
      some (JudgeEvent.unknownCompetitor 3 7)) := by
  have hthm := c3_remap_loop [(1, "openai"), (2, "groq")]
    [Jv.jstr "2", Jv.jnull, Jv.jstr "7"] (by decide)
  exact ⟨hthm.1,
    ((hthm.2 0 (Jv.jstr "2") rfl).2.2 2 "groq" rfl rfl),
    ((hthm.2 1 Jv.jnull rfl).1 rfl),
    ((hthm.2 2 (Jv.jstr "7") rfl).2.1 7 rfl rfl)⟩

/-- C9: a valid competitor number occurring at two positions of the
parsed ranking produces a separate rank line at each occurrence — the
same provider is reported at two distinct 1-based ranks, with no
deduplication. -/
theorem c9_duplicate_entries (nm : List (Int × String)) (order : List Jv)
    (i j : Nat) (n : Int) (p : String) (item : Jv)
    (hij : i < j)
    (hi : order[i]? = some item) (hj : order[j]? = some item)
    (hn : intOfEntry item = some n) (hl : lookupNum nm n = some p)
    (hp : p ≠ "") :
    (remap nm 1 order)[i]? = some (JudgeEvent.rankLine (i + 1) p n) ∧
    (remap nm 1 order)[j]? = some (JudgeEvent.rankLine (j + 1) p n) ∧
    i + 1 ≠ j + 1 := by
  have hgi := remap_get nm order 1 i
  have hgj := remap_get nm order 1 j
  rw [hi] at hgi
  rw [hj] at hgj
  rw [(by omega : 1 + i = i + 1)] at hgi
  rw [(by omega : 1 + j = j + 1)] at hgj
  simp only [Option.map_some'] at hgi hgj
  refine ⟨?_, ?_, by omega⟩
  · rw [hgi]; simp [processEntry, hn, hl, hp]
  · rw [hgj]; simp [processEntry, hn, hl, hp]

/-- C9 witness: the theorem applied to the ranking `["2", "2"]`, which
reports `groq` at both rank 1 and rank 2. -/
theorem c9_witness :
    (remap [(1, "openai"), (2, "groq")] 1 [Jv.jstr "2", Jv.jstr "2"])[0]? =
      some (JudgeEvent.rankLine 1 "groq" 2) ∧
    (remap [(1, "openai"), (2, "groq")] 1 [Jv.jstr "2", Jv.jstr "2"])[1]? =
      some (JudgeEvent.rankLine 2 "groq" 2) ∧
    (0 : Nat) + 1 ≠ 1 + 1 :=
  c9_duplicate_entries [(1, "openai"), (2, "groq")] [Jv.jstr "2", Jv.jstr "2"]
    0 1 2 "groq" (Jv.jstr "2") (by omega) rfl rfl rfl rfl (by decide)


